import Mathlib

/-!
Shallow embedding of the token-shifting and session-lifecycle subsystem of
the `micro_service` repository (Django REST backend).

Embedded source files:
  * `shifting/models.py` — `TokenShift` model;
  * `shifting/serializers.py` — `TokenShiftRequestSerializer` and its field
    validators;
  * `shifting/views.py` — `TokenShiftRequestView`, `TokenShiftHistoryView`,
    `RevokeTokenShiftView` (API v1, source service `shipping-service`);
  * `api_v2/views_shifting.py` — `TokenShiftRequestViewV2`,
    `TokenShiftHistoryViewV2`, `RevokeTokenShiftViewV2` (API v2, wired by
    `api_v2/urls_shifting.py`, source service `api-gateway`);
  * `users/models.py` — `UserSession` model;
  * `users/views.py` — `UserLogoutView`, `ChangePasswordView`,
    `UserSessionListView`, `RevokeSessionView`.

Conventions of the embedding:
  * principals (Django `User` rows) are identified by their primary key,
    a `Nat`;
  * instants (`timezone.now()`, `expires_at`, …) are integers counting
    seconds, so `timedelta(hours=1)` is `3600` and `timedelta(seconds=n)`
    is `n`;
  * a Django table is a `List` of rows; the auto primary key of a freshly
    inserted row is passed in explicitly (`nextId`);
  * `QuerySet.get(...)` is modelled by `djangoGet`: it succeeds exactly
    when the filter matches a single row (`DoesNotExist` and
    `MultipleObjectsReturned` both fall to the error branch; with
    primary-key-unique tables only `DoesNotExist` can occur);
  * `RefreshToken.for_user(user)` and `str(request.auth)` are opaque
    strings supplied by the environment (`new_token`, `auth`);
  * the `jwt.decode` / claim-mutation block in both shift-request views
    mutates a local dict that is then discarded (the decoded token is never
    re-signed or stored), so it has no effect on the state and is not
    modelled.
-/

namespace MicroService

/-- Row of the `token_shifts` table (`shifting/models.py`, class
`TokenShift`).  `shifted_at` is the `auto_now_add` creation instant. -/
structure TokenShift where
  id : Nat
  user : Nat
  original_token : String
  shifted_token : String
  source_service : String
  target_service : String
  shift_reason : String
  token_type : String
  expires_at : Int
  is_active : Bool
  shifted_at : Int
  last_used : Option Int
  usage_count : Nat
  ip_address : Option String
  user_agent : String
  deriving Repr, DecidableEq

/-- `TokenShift.is_expired` (`shifting/models.py`): `timezone.now() > expires_at`. -/
def TokenShift.is_expired (t : TokenShift) (now : Int) : Bool :=
  now > t.expires_at

/-- Raw body of a shift request before serializer validation
(`target_service` required, `shift_reason` and `expires_in` optional). -/
structure ShiftRequestData where
  target_service : String
  shift_reason : Option String
  expires_in : Option Int
  deriving Repr, DecidableEq

/-- `validated_data` produced by a successful
`TokenShiftRequestSerializer.is_valid()` run; `expires_in` carries the
field default `3600` when the body omitted it. -/
structure ValidatedShift where
  target_service : String
  shift_reason : String
  expires_in : Int
  deriving Repr, DecidableEq

/-- The allow-list of `TokenShiftRequestSerializer.validate_target_service`
(`shifting/serializers.py`). -/
def allowed_services : List String :=
  ["user-service", "shipping-service", "tracking-service",
   "payment-service", "analytics-service", "notification-service",
   "api-gateway", "admin-panel"]

/-- `TokenShiftRequestSerializer.validate_target_service`: membership in
the fixed allow-list.  (The `CharField` also carries `max_length=50`;
every member of the allow-list is shorter than 50 characters, so for the
accepting direction the membership test is the whole condition.) -/
def validate_target_service (v : String) : Except String String :=
  if allowed_services.contains v then .ok v
  else .error "Invalid target service"

/-- `TokenShiftRequestSerializer.validate_expires_in` together with the
field bounds `min_value=300`, `max_value=86400` (both express the same
closed range). -/
def validate_expires_in (v : Int) : Except String Int :=
  if v < 300 then .error "Token must expire in at least 5 minutes"
  else if v > 86400 then .error "Token cannot expire in more than 24 hours"
  else .ok v

/-- `TokenShiftRequestSerializer.is_valid()`: run the field validators;
`shift_reason` is optional with `allow_blank=True` and `max_length=200`
(the view reads it back with `.get('shift_reason', '')`); `expires_in`
defaults to `3600` when absent. -/
def tokenShiftRequestSerializerRun (d : ShiftRequestData) :
    Except String ValidatedShift := do
  let tgt ← validate_target_service d.target_service
  let reason := d.shift_reason.getD ""
  if reason.length > 200 then
    .error "Ensure this field has no more than 200 characters"
  else
    let ei ← validate_expires_in (d.expires_in.getD 3600)
    .ok ⟨tgt, reason, ei⟩

/-- Per-request environment data both shift views read besides the body:
the presented credential (`str(request.auth)`), the freshly minted token
(`str(RefreshToken.for_user(user).access_token)`), and client metadata. -/
structure RequestMeta where
  auth : String
  new_token : String
  ip : Option String
  user_agent : String
  deriving Repr, DecidableEq

/-- Response of the shift-request endpoints: either the 200 payload or a
400 with the serializer errors. -/
inductive ShiftResp where
  | ok (shift_id : Nat) (new_token : String) (target_service : String)
      (expires_at : Int)
  | validationError (msg : String)
  deriving Repr, DecidableEq

/-- `TokenShiftRequestView.post` (`shifting/views.py`, API v1).  On valid
input it creates a `TokenShift` row with `source_service =
'shipping-service'` and `expires_at = timezone.now() + timedelta(hours=1)`
— the validated `expires_in` is not consulted. -/
def tokenShiftRequestV1Post (user : Nat) (now : Int) (meta : RequestMeta)
    (d : ShiftRequestData) (nextId : Nat) (db : List TokenShift) :
    List TokenShift × ShiftResp :=
  match tokenShiftRequestSerializerRun d with
  | .ok v =>
      let row : TokenShift :=
        { id := nextId, user := user,
          original_token := meta.auth,
          shifted_token := meta.new_token,
          source_service := "shipping-service",
          target_service := v.target_service,
          shift_reason := v.shift_reason,
          token_type := "access",
          expires_at := now + 3600,
          is_active := true,
          shifted_at := now,
          last_used := none,
          usage_count := 0,
          ip_address := meta.ip,
          user_agent := meta.user_agent }
      (db ++ [row], .ok nextId meta.new_token v.target_service (now + 3600))
  | .error e => (db, .validationError e)

/-- `TokenShiftRequestViewV2.post` (`api_v2/views_shifting.py`, the class
wired by `api_v2/urls_shifting.py`).  Identical to v1 except
`source_service = 'api-gateway'` and `expires_at = timezone.now() +
timedelta(seconds=expires_in)`. -/
def tokenShiftRequestV2Post (user : Nat) (now : Int) (meta : RequestMeta)
    (d : ShiftRequestData) (nextId : Nat) (db : List TokenShift) :
    List TokenShift × ShiftResp :=
  match tokenShiftRequestSerializerRun d with
  | .ok v =>
      let row : TokenShift :=
        { id := nextId, user := user,
          original_token := meta.auth,
          shifted_token := meta.new_token,
          source_service := "api-gateway",
          target_service := v.target_service,
          shift_reason := v.shift_reason,
          token_type := "access",
          expires_at := now + v.expires_in,
          is_active := true,
          shifted_at := now,
          last_used := none,
          usage_count := 0,
          ip_address := meta.ip,
          user_agent := meta.user_agent }
      (db ++ [row], .ok nextId meta.new_token v.target_service (now + v.expires_in))
  | .error e => (db, .validationError e)

/-- `QuerySet.get(filter)`: exactly one matching row yields it;
`DoesNotExist` (no match) and `MultipleObjectsReturned` (several) both
yield `none`.  On a table whose primary keys are unique a filter pinning
the `id` matches at most one row, so `none` is exactly `DoesNotExist`. -/
def djangoGet {α : Type} (p : α → Bool) (l : List α) : Option α :=
  match l.filter p with
  | [x] => some x
  | _ => none

/-- Insertion step of `order_by('-key')`: descending order on `key`. -/
def insertDescBy {α : Type} (key : α → Int) (x : α) : List α → List α
  | [] => [x]
  | y :: ys => if key y ≤ key x then x :: y :: ys else y :: insertDescBy key x ys

/-- `order_by('-key')` on a query result, as insertion sort (the claims
use only that the output is a permutation of the input that is sorted
descending on `key`). -/
def sortDescBy {α : Type} (key : α → Int) : List α → List α
  | [] => []
  | x :: xs => insertDescBy key x (sortDescBy key xs)

/-- `TokenShiftHistoryView.get_queryset` (v1) and
`TokenShiftHistoryViewV2.get_queryset` (v2, `api_v2/views_shifting.py`),
which are textually identical: `TokenShift.objects.filter(user=request.user)
.order_by('-shifted_at')`. -/
def tokenShiftHistory (user : Nat) (db : List TokenShift) : List TokenShift :=
  sortDescBy (·.shifted_at) (db.filter (fun t => t.user == user))

/-- Response of the revoke endpoints. -/
inductive RevokeResp where
  | ok (shift_id : Nat)
  | notFound
  deriving Repr, DecidableEq

/-- `RevokeTokenShiftView.post` (v1) and `RevokeTokenShiftViewV2.post`
(v2, `api_v2/views_shifting.py`), identical logic:
`TokenShift.objects.get(id=shift_id, user=request.user, is_active=True)`;
on success `is_active = False; save()`, on `DoesNotExist` a 404. -/
def revokeTokenShiftPost (user : Nat) (shift_id : Nat)
    (db : List TokenShift) : List TokenShift × RevokeResp :=
  match djangoGet (fun t => t.id == shift_id && t.user == user && t.is_active) db with
  | some _ =>
      (db.map (fun t =>
          if t.id == shift_id && t.user == user && t.is_active then
            { t with is_active := false }
          else t),
       .ok shift_id)
  | none => (db, .notFound)

/-- Row of the `user_sessions` table (`users/models.py`, class
`UserSession`).  `login_at` is `auto_now_add`, `last_activity` is
`auto_now`. -/
structure UserSession where
  id : Nat
  user : Nat
  session_token : String
  ip_address : String
  user_agent : String
  login_at : Int
  last_activity : Int
  expires_at : Int
  is_active : Bool
  deriving Repr, DecidableEq

/-- `UserSession.is_expired` (`users/models.py`): `timezone.now() > expires_at`. -/
def UserSession.is_expired (s : UserSession) (now : Int) : Bool :=
  now > s.expires_at

/-- `UserSessionListView.get_queryset` (`users/views.py`):
`UserSession.objects.filter(user=request.user, is_active=True,
expires_at__gt=timezone.now()).order_by('-last_activity')`. -/
def userSessionListQueryset (user : Nat) (now : Int)
    (db : List UserSession) : List UserSession :=
  sortDescBy (·.last_activity)
    (db.filter (fun s => s.user == user && s.is_active && now < s.expires_at))

/-- Response of `RevokeSessionView.post`. -/
inductive SessionRevokeResp where
  | ok (session_id : Nat)
  | notFound
  deriving Repr, DecidableEq

/-- `RevokeSessionView.post` (`users/views.py`):
`UserSession.objects.get(id=session_id, user=request.user)` — note the
filter does **not** require `is_active=True`; on success the row is saved
with `is_active = False` and `expires_at = timezone.now()`, on
`DoesNotExist` a 404. -/
def revokeSessionPost (user : Nat) (now : Int) (session_id : Nat)
    (db : List UserSession) : List UserSession × SessionRevokeResp :=
  match djangoGet (fun s => s.id == session_id && s.user == user) db with
  | some _ =>
      (db.map (fun s =>
          if s.id == session_id && s.user == user then
            { s with is_active := false, expires_at := now }
          else s),
       .ok session_id)
  | none => (db, .notFound)

/-- The session-invalidation step of `ChangePasswordView.post`
(`users/views.py`): `UserSession.objects.filter(user=user,
is_active=True).update(is_active=False, expires_at=timezone.now())`. -/
def closeAllSessions (user : Nat) (now : Int)
    (db : List UserSession) : List UserSession :=
  db.map (fun s =>
    if s.user == user && s.is_active then
      { s with is_active := false, expires_at := now }
    else s)

/-- Response of `ChangePasswordView.post`: success returns a fresh token
pair, a wrong old password a 400. -/
inductive ChangePasswordResp where
  | ok (refresh access : String)
  | oldPasswordIncorrect
  deriving Repr, DecidableEq

/-- `ChangePasswordView.post` (`users/views.py`), for a request that
passed serializer validation.  `old_ok` abstracts
`user.check_password(old_password)`; `refresh`/`access` abstract the
fresh `RefreshToken.for_user(user)` pair.  On success the password is
set and every active session of the caller is invalidated. -/
def changePasswordPost (user : Nat) (now : Int) (old_ok : Bool)
    (refresh access : String) (db : List UserSession) :
    List UserSession × ChangePasswordResp :=
  if old_ok then
    (closeAllSessions user now db, .ok refresh access)
  else
    (db, .oldPasswordIncorrect)

/-- Response of `UserLogoutView.post`: 205 on success, 400 "Invalid
token" when the blacklist step raised. -/
inductive LogoutResp where
  | ok
  | invalidToken
  deriving Repr, DecidableEq

/-- The session-deactivation step of `UserLogoutView.post`:
`UserSession.objects.filter(user=request.user,
session_token=str(request.auth)).update(is_active=False,
expires_at=timezone.now())`. -/
def logoutDeactivate (user : Nat) (now : Int) (auth : String)
    (db : List UserSession) : List UserSession :=
  db.map (fun s =>
    if s.user == user && s.session_token == auth then
      { s with is_active := false, expires_at := now }
    else s)

/-- `UserLogoutView.post` (`users/views.py`).  When a `refresh_token` is
supplied, `RefreshToken(refresh_token)` / `token.blacklist()` may raise
(malformed token); `blacklist_ok` abstracts whether that step succeeds.
The whole body sits in one `try`: an exception in the blacklist step
skips the session update and returns the 400 branch; otherwise (or when
no `refresh_token` is supplied) the caller's session is deactivated. -/
def userLogoutPost (user : Nat) (now : Int) (auth : String)
    (refresh_token : Option String) (blacklist_ok : String → Bool)
    (db : List UserSession) : List UserSession × LogoutResp :=
  match refresh_token with
  | some rt =>
      if blacklist_ok rt then
        (logoutDeactivate user now auth db, .ok)
      else
        (db, .invalidToken)
  | none => (logoutDeactivate user now auth db, .ok)

/-! ### Helper lemmas about the query-set combinators -/

theorem mem_insertDescBy {α : Type} (key : α → Int) (x y : α) :
    ∀ l : List α, y ∈ insertDescBy key x l ↔ y = x ∨ y ∈ l := by
  intro l
  induction l with
  | nil => simp [insertDescBy]
  | cons z zs ih =>
      by_cases h : key z ≤ key x
      · simp [insertDescBy, h]
      · simp only [insertDescBy, if_neg h, List.mem_cons, ih]
        tauto

theorem mem_sortDescBy {α : Type} (key : α → Int) (y : α) :
    ∀ l : List α, y ∈ sortDescBy key l ↔ y ∈ l := by
  intro l
  induction l with
  | nil => simp [sortDescBy]
  | cons z zs ih =>
      simp only [sortDescBy, mem_insertDescBy, List.mem_cons, ih]

theorem pairwise_insertDescBy {α : Type} (key : α → Int) (x : α) :
    ∀ l : List α, l.Pairwise (fun a b => key b ≤ key a) →
      (insertDescBy key x l).Pairwise (fun a b => key b ≤ key a) := by
  intro l
  induction l with
  | nil => intro _; simp [insertDescBy]
  | cons z zs ih =>
      intro hp
      rw [List.pairwise_cons] at hp
      by_cases h : key z ≤ key x
      · rw [insertDescBy, if_pos h]
        refine List.pairwise_cons.mpr ⟨?_, List.pairwise_cons.mpr hp⟩
        intro b hb
        rcases List.mem_cons.mp hb with rfl | hb
        · exact h
        · exact le_trans (hp.1 b hb) h
      · rw [insertDescBy, if_neg h]
        refine List.pairwise_cons.mpr ⟨?_, ih hp.2⟩
        intro b hb
        rcases (mem_insertDescBy key x b zs).mp hb with rfl | hb
        · exact le_of_lt (lt_of_not_le h)
        · exact hp.1 b hb

theorem pairwise_sortDescBy {α : Type} (key : α → Int) :
    ∀ l : List α, (sortDescBy key l).Pairwise (fun a b => key b ≤ key a) := by
  intro l
  induction l with
  | nil => simp [sortDescBy]
  | cons z zs ih => exact pairwise_insertDescBy key z _ ih

theorem except_bind_ok {ε α β : Type} (a : α) (f : α → Except ε β) :
    (Except.ok a >>= f) = f a := rfl

theorem except_bind_error {ε α β : Type} (e : ε) (f : α → Except ε β) :
    ((Except.error e : Except ε α) >>= f) = Except.error e := rfl

theorem djangoGet_none_of_filter_nil {α : Type} (p : α → Bool)
    (l : List α) (h : ∀ a ∈ l, ¬ p a = true) : djangoGet p l = none := by
  have : l.filter p = [] := List.filter_eq_nil_iff.mpr h
  simp [djangoGet, this]

/-- A request body passing every check of
`TokenShiftRequestSerializer.is_valid()` yields the validated data with
the `expires_in` default filled in. -/
theorem tokenShiftRequestSerializerRun_ok (d : ShiftRequestData)
    (htgt : allowed_services.contains d.target_service = true)
    (hr : (d.shift_reason.getD "").length ≤ 200)
    (h1 : 300 ≤ d.expires_in.getD 3600)
    (h2 : d.expires_in.getD 3600 ≤ 86400) :
    tokenShiftRequestSerializerRun d =
      .ok ⟨d.target_service, d.shift_reason.getD "", d.expires_in.getD 3600⟩ := by
  have hmem : d.target_service ∈ allowed_services := by simpa using htgt
  have h3 : ¬ (d.shift_reason.getD "").length > 200 := by omega
  have h4 : ¬ d.expires_in.getD 3600 < 300 := by omega
  have h5 : ¬ d.expires_in.getD 3600 > 86400 := by omega
  simp [tokenShiftRequestSerializerRun, validate_target_service,
        validate_expires_in, hmem, h3, h4, h5]
  rfl

/-! ### C1 — source service vs target service -/

/-- C1 counterexample: a v1 shift request whose `target_service` equals
the v1 caller's fixed source service name `shipping-service` does **not**
fail: `TokenShiftRequestSerializer` only checks the allow-list (which
contains `shipping-service`) and performs no source/target comparison, so
the request succeeds and a `TokenShiftRecord` with `source_service =
target_service` is persisted — contradicting the claim that such a
request fails with a ValidationError and persists nothing. -/
theorem C1_counterexample :
    tokenShiftRequestV1Post 1 0
      ⟨"orig-access-token-0123456789", "shifted-access-token",
        some "203.0.113.7", "Mozilla"⟩
      ⟨"shipping-service", none, none⟩ 1 []
    = ([{ id := 1, user := 1,
          original_token := "orig-access-token-0123456789",
          shifted_token := "shifted-access-token",
          source_service := "shipping-service",
          target_service := "shipping-service",
          shift_reason := "", token_type := "access",
          expires_at := 3600, is_active := true, shifted_at := 0,
          last_used := none, usage_count := 0,
          ip_address := some "203.0.113.7", user_agent := "Mozilla" }],
       .ok 1 "shifted-access-token" "shipping-service" 3600) := by
  rfl

/-- **C1** (amended): a shift request whose `target_service` equals the
caller's fixed source service name passes validation — both caller
constants (`shipping-service` for v1, `api-gateway` for v2) are members
of the target allow-list and the request serializer performs no
source/target comparison — so `request_shift` succeeds and persists a
`TokenShiftRecord` with `source_service = target_service`. -/
theorem C1_amended (user : Nat) (now : Int) (meta : RequestMeta)
    (d : ShiftRequestData) (nextId : Nat) (db : List TokenShift)
    (hr : (d.shift_reason.getD "").length ≤ 200)
    (h1 : 300 ≤ d.expires_in.getD 3600)
    (h2 : d.expires_in.getD 3600 ≤ 86400) :
    (d.target_service = "shipping-service" →
      ∃ row : TokenShift,
        tokenShiftRequestV1Post user now meta d nextId db =
          (db ++ [row], .ok nextId meta.new_token "shipping-service" (now + 3600)) ∧
        row.source_service = "shipping-service" ∧
        row.target_service = "shipping-service" ∧ row.is_active = true)
    ∧ (d.target_service = "api-gateway" →
      ∃ row : TokenShift,
        tokenShiftRequestV2Post user now meta d nextId db =
          (db ++ [row], .ok nextId meta.new_token "api-gateway"
            (now + d.expires_in.getD 3600)) ∧
        row.source_service = "api-gateway" ∧
        row.target_service = "api-gateway" ∧ row.is_active = true) := by
  constructor
  · intro ht
    have htgt : allowed_services.contains d.target_service = true := by
      rw [ht]; decide
    refine ⟨{ id := nextId, user := user, original_token := meta.auth,
              shifted_token := meta.new_token,
              source_service := "shipping-service",
              target_service := "shipping-service",
              shift_reason := d.shift_reason.getD "",
              token_type := "access", expires_at := now + 3600,
              is_active := true, shifted_at := now, last_used := none,
              usage_count := 0, ip_address := meta.ip,
              user_agent := meta.user_agent }, ?_, rfl, rfl, rfl⟩
    simp [tokenShiftRequestV1Post,
          tokenShiftRequestSerializerRun_ok d htgt hr h1 h2, ht]
  · intro ht
    have htgt : allowed_services.contains d.target_service = true := by
      rw [ht]; decide
    refine ⟨{ id := nextId, user := user, original_token := meta.auth,
              shifted_token := meta.new_token,
              source_service := "api-gateway",
              target_service := "api-gateway",
              shift_reason := d.shift_reason.getD "",
              token_type := "access",
              expires_at := now + d.expires_in.getD 3600,
              is_active := true, shifted_at := now, last_used := none,
              usage_count := 0, ip_address := meta.ip,
              user_agent := meta.user_agent }, ?_, rfl, rfl, rfl⟩
    simp [tokenShiftRequestV2Post,
          tokenShiftRequestSerializerRun_ok d htgt hr h1 h2, ht]

/-- C1 witness: the amended claim evaluated on a concrete v1 request. -/
theorem C1_witness :
    ∃ row : TokenShift,
      tokenShiftRequestV1Post 1 0
        ⟨"orig-access-token-0123456789", "shifted-access-token",
          some "203.0.113.7", "Mozilla"⟩
        ⟨"shipping-service", none, none⟩ 1 [] =
        ([row], .ok 1 "shifted-access-token" "shipping-service" 3600) ∧
      row.source_service = "shipping-service" ∧
      row.target_service = "shipping-service" ∧ row.is_active = true := by
  have h := (C1_amended 1 0
      ⟨"orig-access-token-0123456789", "shifted-access-token",
        some "203.0.113.7", "Mozilla"⟩
      ⟨"shipping-service", none, none⟩ 1 []
      (by decide) (by decide) (by decide)).1 rfl
  simpa using h

/-! ### C2 — redaction of the original credential -/

/-- C2 counterexample: an accepted v1 shift request persists the
**full** presented credential in `original_token`
(`original_token=str(request.auth)` in `TokenShiftRequestView.post`; the
same expression appears in the wired `TokenShiftRequestViewV2.post`),
contradicting the claim that only a truncated/redacted form is ever
stored. -/
theorem C2_counterexample :
    ((tokenShiftRequestV1Post 1 0
        ⟨"full-original-access-token-abcdefghijklmnopqrstuvwxyz-0123456789",
          "new-tok", none, ""⟩
        ⟨"analytics-service", none, none⟩ 1 []).1.map
          (fun t => t.original_token))
      = ["full-original-access-token-abcdefghijklmnopqrstuvwxyz-0123456789"] ∧
    (tokenShiftRequestV1Post 1 0
        ⟨"full-original-access-token-abcdefghijklmnopqrstuvwxyz-0123456789",
          "new-tok", none, ""⟩
        ⟨"analytics-service", none, none⟩ 1 []).2
      = .ok 1 "new-tok" "analytics-service" 3600 := by
  exact ⟨rfl, rfl⟩

/-- **C2** (amended): for every accepted shift request, both the v1
endpoint and the wired v2 endpoint persist a `TokenShiftRecord` whose
`original_token` is the full presented credential `str(request.auth)`,
unredacted. -/
theorem C2_amended (user : Nat) (now : Int) (meta : RequestMeta)
    (d : ShiftRequestData) (nextId : Nat) (db : List TokenShift)
    (htgt : allowed_services.contains d.target_service = true)
    (hr : (d.shift_reason.getD "").length ≤ 200)
    (h1 : 300 ≤ d.expires_in.getD 3600)
    (h2 : d.expires_in.getD 3600 ≤ 86400) :
    ((tokenShiftRequestV1Post user now meta d nextId db).1.map
        (fun t => t.original_token)
      = db.map (fun t => t.original_token) ++ [meta.auth])
    ∧ ((tokenShiftRequestV2Post user now meta d nextId db).1.map
        (fun t => t.original_token)
      = db.map (fun t => t.original_token) ++ [meta.auth]) := by
  constructor
  · simp [tokenShiftRequestV1Post,
          tokenShiftRequestSerializerRun_ok d htgt hr h1 h2]
  · simp [tokenShiftRequestV2Post,
          tokenShiftRequestSerializerRun_ok d htgt hr h1 h2]

/-- C2 witness: the amended claim evaluated on a concrete request. -/
theorem C2_witness :
    ((tokenShiftRequestV1Post 1 0
        ⟨"the-presented-credential", "new-tok", none, ""⟩
        ⟨"analytics-service", none, none⟩ 1 []).1.map
          (fun t => t.original_token) = ["the-presented-credential"])
    ∧ ((tokenShiftRequestV2Post 1 0
        ⟨"the-presented-credential", "new-tok", none, ""⟩
        ⟨"analytics-service", none, none⟩ 1 []).1.map
          (fun t => t.original_token) = ["the-presented-credential"]) := by
  have h := C2_amended 1 0
      ⟨"the-presented-credential", "new-tok", none, ""⟩
      ⟨"analytics-service", none, none⟩ 1 []
      (by decide) (by decide) (by decide) (by decide)
  simpa using h

/-! ### C3 — persisted expiry vs requested expires_in -/

/-- C3 counterexample: the v1 endpoint accepts `expires_in = 7200`
(validation passes) but persists `expires_at = now + 3600`
(`timezone.now() + timedelta(hours=1)` hard-coded in
`TokenShiftRequestView.post`), not `now + 7200` — contradicting the
claim that every accepted request's record expires at creation time plus
the requested `expires_in`. -/
theorem C3_counterexample :
    (tokenShiftRequestV1Post 1 0 ⟨"orig", "new", none, ""⟩
        ⟨"analytics-service", none, some 7200⟩ 1 []).2
      = .ok 1 "new" "analytics-service" 3600 ∧
    ((tokenShiftRequestV1Post 1 0 ⟨"orig", "new", none, ""⟩
        ⟨"analytics-service", none, some 7200⟩ 1 []).1.map
          (fun t => t.expires_at)) = [3600] ∧
    (3600 : Int) ≠ 0 + 7200 := by
  exact ⟨rfl, rfl, by decide⟩

/-- **C3** (amended): for every accepted shift request, the wired v2
endpoint persists `expires_at = now + expires_in` (default `3600` when
unspecified), while the v1 endpoint always persists `expires_at = now +
3600` regardless of the requested `expires_in`; in particular a request
with `expires_in = 3600` (or none) yields `expires_at = now + 3600` on
both endpoints. -/
theorem C3_amended (user : Nat) (now : Int) (meta : RequestMeta)
    (d : ShiftRequestData) (nextId : Nat) (db : List TokenShift)
    (htgt : allowed_services.contains d.target_service = true)
    (hr : (d.shift_reason.getD "").length ≤ 200)
    (h1 : 300 ≤ d.expires_in.getD 3600)
    (h2 : d.expires_in.getD 3600 ≤ 86400) :
    ((tokenShiftRequestV2Post user now meta d nextId db).1.map
        (fun t => t.expires_at)
      = db.map (fun t => t.expires_at) ++ [now + d.expires_in.getD 3600])
    ∧ ((tokenShiftRequestV1Post user now meta d nextId db).1.map
        (fun t => t.expires_at)
      = db.map (fun t => t.expires_at) ++ [now + 3600]) := by
  constructor
  · simp [tokenShiftRequestV2Post,
          tokenShiftRequestSerializerRun_ok d htgt hr h1 h2]
  · simp [tokenShiftRequestV1Post,
          tokenShiftRequestSerializerRun_ok d htgt hr h1 h2]

/-- C3 witness: the amended claim evaluated on a concrete request with
`expires_in = 7200`: v2 persists expiry `now + 7200`, v1 persists
`now + 3600`. -/
theorem C3_witness :
    ((tokenShiftRequestV2Post 1 100 ⟨"orig", "new", none, ""⟩
        ⟨"analytics-service", none, some 7200⟩ 1 []).1.map
          (fun t => t.expires_at) = [7300])
    ∧ ((tokenShiftRequestV1Post 1 100 ⟨"orig", "new", none, ""⟩
        ⟨"analytics-service", none, some 7200⟩ 1 []).1.map
          (fun t => t.expires_at) = [3700]) := by
  have h := C3_amended 1 100 ⟨"orig", "new", none, ""⟩
      ⟨"analytics-service", none, some 7200⟩ 1 []
      (by decide) (by decide) (by decide) (by decide)
  simpa using h

/-- On a table whose `key` column is unique, a filter satisfied by the
single row `a` (and, via `key`, only by `a`) returns exactly `[a]`. -/
theorem filter_eq_singleton_of_nodup_key {α β : Type} (key : α → β)
    (p : α → Bool) :
    ∀ (l : List α) (a : α), (l.map key).Nodup → a ∈ l → p a = true →
      (∀ x ∈ l, p x = true → key x = key a) → l.filter p = [a] := by
  intro l
  induction l with
  | nil => intro a _ ha; cases ha
  | cons x xs ih =>
      intro a hnd ha hpa hkey
      rw [List.map_cons, List.nodup_cons] at hnd
      rcases List.mem_cons.mp ha with rfl | ha
      · have hnil : xs.filter p = [] := by
          refine List.filter_eq_nil_iff.mpr ?_
          intro y hy hpy
          exact hnd.1 (hkey y (List.mem_cons_of_mem _ hy) hpy ▸
            List.mem_map_of_mem key hy)
        rw [List.filter_cons, if_pos hpa, hnil]
      · have hpx : ¬ p x = true := by
          intro hpx
          exact hnd.1 ((hkey x (List.mem_cons_self x xs) hpx) ▸
            List.mem_map_of_mem key ha)
        rw [List.filter_cons, if_neg hpx]
        exact ih a hnd.2 ha hpa
          (fun y hy hpy => hkey y (List.mem_cons_of_mem _ hy) hpy)

/-! ### C4 — cross-tenant isolation -/

/-- **C4**: for two distinct principals A and B, A's shift-history and
active-session listings never contain a record owned by B (both query
sets filter on `user=request.user`), and A's revoke call on a shift id
owned by B answers NotFound, leaving the table unchanged (the `get`
filter also pins `user=request.user`, so B's row is invisible to it). -/
theorem C4_tenant_isolation (A B : Nat) (now : Int)
    (tdb : List TokenShift) (sdb : List UserSession) (hAB : A ≠ B) :
    (∀ t ∈ tokenShiftHistory A tdb, t.user ≠ B)
    ∧ (∀ s ∈ userSessionListQueryset A now sdb, s.user ≠ B)
    ∧ (∀ ts ∈ tdb, ts.user = B → (tdb.map (fun t => t.id)).Nodup →
        revokeTokenShiftPost A ts.id tdb = (tdb, .notFound)) := by
  refine ⟨?_, ?_, ?_⟩
  · intro t ht
    rw [tokenShiftHistory, mem_sortDescBy, List.mem_filter] at ht
    have hA : t.user = A := by simpa using ht.2
    omega
  · intro s hs
    rw [userSessionListQueryset, mem_sortDescBy, List.mem_filter] at hs
    have hA : s.user = A := by
      have := hs.2
      simp only [Bool.and_eq_true, beq_iff_eq] at this
      exact this.1.1
    omega
  · intro ts hts hB hnd
    have hnone : djangoGet
        (fun t => t.id == ts.id && t.user == A && t.is_active) tdb = none := by
      apply djangoGet_none_of_filter_nil
      intro t ht hp
      simp only [Bool.and_eq_true, beq_iff_eq] at hp
      have hteq : t = ts := List.inj_on_of_nodup_map hnd ht hts hp.1.1
      have : ts.user = A := by rw [← hteq]; exact hp.1.2
      omega
    simp [revokeTokenShiftPost, hnone]

/-- C4 witness: principal 1 revoking a shift owned by principal 2 gets
NotFound and the table is unchanged. -/
theorem C4_witness :
    revokeTokenShiftPost 1 9
      [⟨9, 2, "orig", "new", "api-gateway", "analytics-service", "",
        "access", 5000, true, 0, none, 0, none, ""⟩]
    = ([⟨9, 2, "orig", "new", "api-gateway", "analytics-service", "",
        "access", 5000, true, 0, none, 0, none, ""⟩], .notFound) := by
  have h := (C4_tenant_isolation 1 2 0
      [⟨9, 2, "orig", "new", "api-gateway", "analytics-service", "",
        "access", 5000, true, 0, none, 0, none, ""⟩]
      [] (by decide)).2.2
      ⟨9, 2, "orig", "new", "api-gateway", "analytics-service", "",
        "access", 5000, true, 0, none, 0, none, ""⟩
      (by simp) rfl (by decide)
  simpa using h

/-! ### C5 — double revocation of a session -/

/-- C5 counterexample: `RevokeSessionView.post` fetches the session with
`UserSession.objects.get(id=session_id, user=request.user)` — without an
`is_active=True` filter — so revoking an already-inactive session
succeeds with a 200 (no Conflict) and modifies the record: `expires_at`
is re-set to the time of the second call (here 5 becomes 10). -/
theorem C5_counterexample :
    revokeSessionPost 1 10 7 [⟨7, 1, "tok", "ip", "ua", 0, 0, 5, false⟩]
      = ([⟨7, 1, "tok", "ip", "ua", 0, 0, 10, false⟩], .ok 7) ∧
    ([(⟨7, 1, "tok", "ip", "ua", 0, 0, 10, false⟩ : UserSession)] ≠
      [⟨7, 1, "tok", "ip", "ua", 0, 0, 5, false⟩]) := by
  exact ⟨rfl, by decide⟩

/-- **C5** (amended): revoking an already-inactive session by its owner
does **not** fail: the call succeeds with a 200 response and re-saves the
record with `is_active=false` and `expires_at` set to the current time of
the second call. -/
theorem C5_amended (u : Nat) (now : Int) (sid : Nat)
    (db : List UserSession) (s : UserSession) (hs : s ∈ db)
    (hid : s.id = sid) (hu : s.user = u) (_hinact : s.is_active = false)
    (hnd : (db.map (fun t => t.id)).Nodup) :
    revokeSessionPost u now sid db =
      (db.map (fun t => if t.id == sid && t.user == u then
          { t with is_active := false, expires_at := now } else t),
       .ok sid) := by
  have hfil : db.filter (fun t => t.id == sid && t.user == u) = [s] := by
    apply filter_eq_singleton_of_nodup_key (fun t => t.id) _ db s hnd hs
    · simp [hid, hu]
    · intro x hx hpx
      simp only [Bool.and_eq_true, beq_iff_eq] at hpx
      rw [hpx.1, hid]
  simp [revokeSessionPost, djangoGet, hfil]

/-- C5 witness: the amended claim evaluated on a concrete inactive
session. -/
theorem C5_witness :
    revokeSessionPost 1 10 7 [⟨7, 1, "tk", "ip", "ua", 0, 0, 5, false⟩]
      = ([⟨7, 1, "tk", "ip", "ua", 0, 0, 10, false⟩], .ok 7) := by
  have h := C5_amended 1 10 7
      [⟨7, 1, "tk", "ip", "ua", 0, 0, 5, false⟩]
      ⟨7, 1, "tk", "ip", "ua", 0, 0, 5, false⟩
      (by simp) rfl rfl rfl (by decide)
  simpa using h

/-! ### C6 — revocation of a shift record is terminal -/

/-- **C6**: calling `revoke_shift` on an already-inactive shift record
fails (`DoesNotExist` → 404 NotFound, since the fetch filter requires
`is_active=True`) and changes nothing; consequently after a successful
revoke a repeat call on the same id by the same principal always answers
NotFound, leaves the table unchanged, and the record stays inactive. -/
theorem C6_revoke_shift_terminal (u sid : Nat) (db : List TokenShift) :
    ((∀ t ∈ db, t.id = sid → t.is_active = false) →
       revokeTokenShiftPost u sid db = (db, .notFound))
    ∧ (∀ db' : List TokenShift,
        revokeTokenShiftPost u sid db = (db', .ok sid) →
        revokeTokenShiftPost u sid db' = (db', .notFound) ∧
        ∀ t ∈ db', t.id = sid → t.user = u → t.is_active = false) := by
  constructor
  · intro hin
    have hnone : djangoGet
        (fun t => t.id == sid && t.user == u && t.is_active) db = none := by
      apply djangoGet_none_of_filter_nil
      intro t ht hp
      simp only [Bool.and_eq_true, beq_iff_eq] at hp
      have := hin t ht hp.1.1
      rw [this] at hp
      exact absurd hp.2 (by simp)
    simp [revokeTokenShiftPost, hnone]
  · intro db' hok
    cases hget : djangoGet
        (fun t => t.id == sid && t.user == u && t.is_active) db with
    | none =>
        unfold revokeTokenShiftPost at hok
        rw [hget] at hok
        simp [Prod.ext_iff] at hok
    | some x =>
        unfold revokeTokenShiftPost at hok
        rw [hget] at hok
        simp only [Prod.mk.injEq] at hok
        obtain ⟨hdb, -⟩ := hok
        subst hdb
        have hp' : ∀ t' ∈ db.map (fun t =>
            if t.id == sid && t.user == u && t.is_active then
              { t with is_active := false } else t),
            ¬ (t'.id == sid && t'.user == u && t'.is_active) = true := by
          intro t' ht'
          obtain ⟨t0, ht0, rfl⟩ := List.mem_map.mp ht'
          by_cases hp : (t0.id == sid && t0.user == u && t0.is_active) = true
          · rw [if_pos hp]
            simp
          · rw [if_neg hp]
            exact hp
        refine ⟨?_, ?_⟩
        · have hnone2 : djangoGet
              (fun t => t.id == sid && t.user == u && t.is_active)
              (db.map (fun t =>
                if t.id == sid && t.user == u && t.is_active then
                  { t with is_active := false } else t)) = none :=
            djangoGet_none_of_filter_nil _ _ hp'
          unfold revokeTokenShiftPost
          rw [hnone2]
        · intro t ht h1 h2
          have := hp' t ht
          simp only [Bool.and_eq_true, beq_iff_eq, not_and] at this
          by_contra hact
          rw [Bool.not_eq_false] at hact
          exact this ⟨h1, h2⟩ hact

/-- C6 witness: a concrete inactive shift record cannot be revoked again,
and a successful revoke followed by a repeat call answers NotFound. -/
theorem C6_witness :
    revokeTokenShiftPost 1 5
      [⟨5, 1, "o", "n", "shipping-service", "analytics-service", "",
        "access", 900, false, 0, none, 0, none, ""⟩]
    = ([⟨5, 1, "o", "n", "shipping-service", "analytics-service", "",
        "access", 900, false, 0, none, 0, none, ""⟩], .notFound) ∧
    revokeTokenShiftPost 1 5
      [⟨5, 1, "o", "n", "shipping-service", "analytics-service", "",
        "access", 900, false, 0, none, 0, none, ""⟩]
    = ([⟨5, 1, "o", "n", "shipping-service", "analytics-service", "",
        "access", 900, false, 0, none, 0, none, ""⟩], .notFound) := by
  constructor
  · exact (C6_revoke_shift_terminal 1 5
      [⟨5, 1, "o", "n", "shipping-service", "analytics-service", "",
        "access", 900, false, 0, none, 0, none, ""⟩]).1 (by decide)
  · exact ((C6_revoke_shift_terminal 1 5
      [⟨5, 1, "o", "n", "shipping-service", "analytics-service", "",
        "access", 900, true, 0, none, 0, none, ""⟩]).2
      [⟨5, 1, "o", "n", "shipping-service", "analytics-service", "",
        "access", 900, false, 0, none, 0, none, ""⟩] (by rfl)).1

/-! ### C7 — the active-session listing -/

/-- **C7**: `list_active(P)` returns exactly the sessions of P with
`is_active=true` and `expires_at` strictly in the future, ordered by
most-recent `last_activity` first; a session whose `expires_at` has
passed never appears, regardless of its `active` flag. -/
theorem C7_list_active (u : Nat) (now : Int) (db : List UserSession) :
    (∀ s : UserSession, s ∈ userSessionListQueryset u now db ↔
        (s ∈ db ∧ s.user = u ∧ s.is_active = true ∧ now < s.expires_at))
    ∧ (userSessionListQueryset u now db).Pairwise
        (fun a b => b.last_activity ≤ a.last_activity)
    ∧ (∀ s : UserSession, s.expires_at ≤ now →
        s ∉ userSessionListQueryset u now db) := by
  refine ⟨?_, ?_, ?_⟩
  · intro s
    rw [userSessionListQueryset, mem_sortDescBy, List.mem_filter]
    simp [and_assoc]
  · exact pairwise_sortDescBy _ _
  · intro s hle hmem
    rw [userSessionListQueryset, mem_sortDescBy, List.mem_filter] at hmem
    have := hmem.2
    simp only [Bool.and_eq_true, beq_iff_eq, decide_eq_true_eq] at this
    omega

/-- C7 witness: a concrete active unexpired session is listed. -/
theorem C7_witness :
    (⟨1, 1, "t", "i", "u", 0, 50, 100, true⟩ : UserSession) ∈
      userSessionListQueryset 1 0 [⟨1, 1, "t", "i", "u", 0, 50, 100, true⟩] := by
  exact ((C7_list_active 1 0
      [⟨1, 1, "t", "i", "u", 0, 50, 100, true⟩]).1 _).mpr (by decide)

/-! ### C8 — password change closes every active session -/

/-- **C8**: a successful password change invalidates every active
session of the caller (`is_active=false`, `expires_at` set to the call
time, hence `≤ now`), and a subsequent `list_active` call — at any
instant — returns the empty sequence. -/
theorem C8_password_change_cascade (u : Nat) (now : Int) (old_ok : Bool)
    (refresh access : String) (db : List UserSession) (h : old_ok = true) :
    changePasswordPost u now old_ok refresh access db
      = (closeAllSessions u now db, .ok refresh access)
    ∧ (∀ s ∈ db, s.user = u → s.is_active = true →
        ({ s with is_active := false, expires_at := now } : UserSession)
          ∈ closeAllSessions u now db)
    ∧ (∀ s ∈ closeAllSessions u now db, s.user = u → s.is_active = false)
    ∧ (∀ t : Int, userSessionListQueryset u t (closeAllSessions u now db) = []) := by
  subst h
  have key : ∀ s ∈ closeAllSessions u now db, s.user = u → s.is_active = false := by
    intro s hsmem h1
    rw [closeAllSessions] at hsmem
    obtain ⟨t0, ht0, rfl⟩ := List.mem_map.mp hsmem
    by_cases hc : (t0.user == u && t0.is_active) = true
    · rw [if_pos hc] at h1 ⊢
    · rw [if_neg hc] at h1 ⊢
      by_cases ht : t0.is_active = true
      · exact absurd (by simp [h1, ht]) hc
      · simpa using ht
  refine ⟨rfl, ?_, key, ?_⟩
  · intro s hs h1 h2
    rw [closeAllSessions]
    have heq : ({ s with is_active := false, expires_at := now } : UserSession)
        = if s.user == u && s.is_active then
            { s with is_active := false, expires_at := now } else s := by
      rw [if_pos (by simp [h1, h2])]
    rw [heq]
    exact List.mem_map_of_mem _ hs
  · intro t
    have hfil : ∀ s ∈ closeAllSessions u now db,
        ¬ ((s.user == u && s.is_active && decide (t < s.expires_at)) = true) := by
      intro s hsmem hp
      simp only [Bool.and_eq_true, beq_iff_eq, decide_eq_true_eq] at hp
      have := key s hsmem hp.1.1
      rw [this] at hp
      exact absurd hp.1.2 (by simp)
    rw [userSessionListQueryset, List.filter_eq_nil_iff.mpr hfil]
    rfl

/-- C8 witness: the cascade evaluated on a concrete single-session
store. -/
theorem C8_witness :
    changePasswordPost 1 50 true "r" "a" [⟨1, 1, "t", "i", "u", 0, 0, 100, true⟩]
      = (closeAllSessions 1 50 [⟨1, 1, "t", "i", "u", 0, 0, 100, true⟩], .ok "r" "a")
    ∧ closeAllSessions 1 50 [⟨1, 1, "t", "i", "u", 0, 0, 100, true⟩]
      = [⟨1, 1, "t", "i", "u", 0, 0, 50, false⟩]
    ∧ userSessionListQueryset 1 60
        (closeAllSessions 1 50 [⟨1, 1, "t", "i", "u", 0, 0, 100, true⟩]) = [] := by
  have h := C8_password_change_cascade 1 50 true "r" "a"
      [⟨1, 1, "t", "i", "u", 0, 0, 100, true⟩] rfl
  exact ⟨h.1, rfl, h.2.2.2 60⟩

/-! ### C9 — expires_in validation bounds -/

/-- A request body carrying an out-of-range `expires_in` fails
`TokenShiftRequestSerializer.is_valid()`. -/
theorem tokenShiftRequestSerializerRun_error_of_expires
    (d : ShiftRequestData) (v : Int) (hv : d.expires_in = some v)
    (hout : v < 300 ∨ 86400 < v) :
    ∃ e, tokenShiftRequestSerializerRun d = .error e := by
  have hvv : d.expires_in.getD 3600 = v := by rw [hv]; rfl
  unfold tokenShiftRequestSerializerRun
  cases htv : validate_target_service d.target_service with
  | error e => exact ⟨e, by simp [htv, except_bind_error]⟩
  | ok tgt =>
      by_cases hr : (d.shift_reason.getD "").length > 200
      · exact ⟨"Ensure this field has no more than 200 characters",
          by simp [htv, hr, except_bind_ok]⟩
      · have he : ∃ e, validate_expires_in (d.expires_in.getD 3600) = .error e := by
          rw [hvv]
          unfold validate_expires_in
          rcases hout with hlt | hgt
          · exact ⟨"Token must expire in at least 5 minutes", by rw [if_pos hlt]⟩
          · exact ⟨"Token cannot expire in more than 24 hours",
              by rw [if_neg (by omega), if_pos (by omega)]⟩
        obtain ⟨e, he⟩ := he
        exact ⟨e, by simp [htv, hr, he, except_bind_ok, except_bind_error]⟩

/-- **C9**: a shift request with `expires_in` outside `[300, 86400]`
fails validation on both endpoints and persists nothing, and the bounds
are exact: 299 rejected, 300 accepted, 86400 accepted, 86401 rejected. -/
theorem C9_expires_in_bounds :
    (∀ (user : Nat) (now : Int) (meta : RequestMeta) (d : ShiftRequestData)
        (nextId : Nat) (db : List TokenShift) (v : Int),
        d.expires_in = some v → (v < 300 ∨ 86400 < v) →
        (∃ e, tokenShiftRequestV1Post user now meta d nextId db
            = (db, .validationError e))
        ∧ (∃ e, tokenShiftRequestV2Post user now meta d nextId db
            = (db, .validationError e)))
    ∧ (∃ e, tokenShiftRequestSerializerRun
        ⟨"analytics-service", none, some 299⟩ = .error e)
    ∧ tokenShiftRequestSerializerRun ⟨"analytics-service", none, some 300⟩
        = .ok ⟨"analytics-service", "", 300⟩
    ∧ tokenShiftRequestSerializerRun ⟨"analytics-service", none, some 86400⟩
        = .ok ⟨"analytics-service", "", 86400⟩
    ∧ (∃ e, tokenShiftRequestSerializerRun
        ⟨"analytics-service", none, some 86401⟩ = .error e) := by
  refine ⟨?_, ⟨_, rfl⟩, rfl, rfl, ⟨_, rfl⟩⟩
  intro user now meta d nextId db v hv hout
  obtain ⟨e, he⟩ := tokenShiftRequestSerializerRun_error_of_expires d v hv hout
  exact ⟨⟨e, by simp [tokenShiftRequestV1Post, he]⟩,
         ⟨e, by simp [tokenShiftRequestV2Post, he]⟩⟩

/-- C9 witness: a concrete request with `expires_in = 100` is rejected by
both endpoints and persists nothing. -/
theorem C9_witness :
    (∃ e, tokenShiftRequestV1Post 1 0 ⟨"o", "n", none, ""⟩
        ⟨"analytics-service", none, some 100⟩ 1 [] = ([], .validationError e))
    ∧ (∃ e, tokenShiftRequestV2Post 1 0 ⟨"o", "n", none, ""⟩
        ⟨"analytics-service", none, some 100⟩ 1 [] = ([], .validationError e)) := by
  exact C9_expires_in_bounds.1 1 0 ⟨"o", "n", none, ""⟩
      ⟨"analytics-service", none, some 100⟩ 1 [] 100 rfl (by decide)

/-! ### C10 — logout with a malformed refresh token -/

/-- **C10**: when the refresh-token blacklist step raises (malformed
token), `UserLogoutView.post` returns the 400 "Invalid token" branch
and the session table is left entirely unchanged — the caller's session
keeps its `active` flag and original `expires_at`; the session is
deactivated exactly when the blacklist step succeeds or no
`refresh_token` was supplied. -/
theorem C10_logout_blacklist (u : Nat) (now : Int) (auth : String)
    (rt : String) (blacklist_ok : String → Bool) (db : List UserSession) :
    (blacklist_ok rt = false →
      userLogoutPost u now auth (some rt) blacklist_ok db = (db, .invalidToken))
    ∧ (blacklist_ok rt = true →
      userLogoutPost u now auth (some rt) blacklist_ok db
        = (logoutDeactivate u now auth db, .ok))
    ∧ userLogoutPost u now auth none blacklist_ok db
        = (logoutDeactivate u now auth db, .ok) := by
  refine ⟨?_, ?_, rfl⟩
  · intro h
    simp [userLogoutPost, h]
  · intro h
    simp [userLogoutPost, h]

/-- C10 witness: a failing blacklist leaves the concrete session
untouched; a succeeding one deactivates it. -/
theorem C10_witness :
    userLogoutPost 1 5 "tok" (some "bad") (fun rt => rt == "good")
      [⟨3, 1, "tok", "i", "u", 0, 0, 100, true⟩]
    = ([⟨3, 1, "tok", "i", "u", 0, 0, 100, true⟩], .invalidToken)
    ∧ userLogoutPost 1 5 "tok" (some "good") (fun rt => rt == "good")
      [⟨3, 1, "tok", "i", "u", 0, 0, 100, true⟩]
    = (logoutDeactivate 1 5 "tok" [⟨3, 1, "tok", "i", "u", 0, 0, 100, true⟩], .ok)
    ∧ logoutDeactivate 1 5 "tok" [⟨3, 1, "tok", "i", "u", 0, 0, 100, true⟩]
      = [⟨3, 1, "tok", "i", "u", 0, 0, 5, false⟩] := by
  refine ⟨?_, ?_, rfl⟩
  · exact (C10_logout_blacklist 1 5 "tok" "bad" (fun rt => rt == "good")
      [⟨3, 1, "tok", "i", "u", 0, 0, 100, true⟩]).1 (by decide)
  · exact (C10_logout_blacklist 1 5 "tok" "good" (fun rt => rt == "good")
      [⟨3, 1, "tok", "i", "u", 0, 0, 100, true⟩]).2.1 (by decide)

end MicroService
